import Mathlib

/-!
Verification development for the RTT-to-PTY bridge (`rtt2pty_pylink.py`).
The Python source is shallowly embedded: pure helpers become Lean
functions; the probe SDK (pylink) is modelled as an oracle structure
whose query results are indexed by the retry attempt; exceptions become
explicit result constructors; printed output becomes an event list
tagged with its stream (stdout / stderr).
-/

set_option autoImplicit false

namespace Rtt2Pty

/-! ## Python string primitives used by the source -/

/-- Embedding of Python `str.strip()` (drop leading/trailing whitespace). -/
def pyStrip (s : String) : String :=
  String.mk (((s.data.dropWhile Char.isWhitespace).reverse.dropWhile
    Char.isWhitespace).reverse)

/-- Embedding of Python `name.rstrip(chr(0))`: drop trailing NUL characters. -/
def rstripNull (s : String) : String :=
  String.mk ((s.data.reverse.dropWhile (fun c => c = Char.ofNat 0)).reverse)

/-- Embedding of Python `str.split(sep)` for a one-character separator. -/
def pySplit (sep : Char) : List Char → List (List Char)
  | [] => [[]]
  | c :: cs =>
    match pySplit sep cs, decide (c = sep) with
    | r, true => [] :: r
    | h :: t, false => (c :: h) :: t
    | [], false => [[c]]

/-- Embedding of Python `c in s` membership test on a string's characters. -/
def chContains (c : Char) : List Char → Bool
  | [] => false
  | x :: xs => if x = c then true else chContains c xs

/-- Number of occurrences of a character in a character list. -/
def chCount (c : Char) : List Char → Nat
  | [] => 0
  | x :: xs => (if x = c then 1 else 0) + chCount c xs

/-- Value of one digit character for bases up to 16, `none` if not a digit. -/
def digitVal16 (c : Char) : Option Nat :=
  if '0' ≤ c ∧ c ≤ '9' then some (c.toNat - 48)
  else if 'a' ≤ c ∧ c ≤ 'f' then some (c.toNat - 87)
  else if 'A' ≤ c ∧ c ≤ 'F' then some (c.toNat - 55)
  else none

/-- Digit value restricted to the given base. -/
def digitVal (base : Nat) (c : Char) : Option Nat :=
  match digitVal16 c with
  | some v => if v < base then some v else none
  | none => none

/-- Accumulate the value of a digit string; fails on a non-digit. -/
def digitsValGo (base : Nat) (acc : Nat) : List Char → Option Nat
  | [] => some acc
  | c :: cs =>
    match digitVal base c with
    | some v => digitsValGo base (base * acc + v) cs
    | none => none

/-- Value of a non-empty digit string in the given base. -/
def digitsVal (base : Nat) : List Char → Option Nat
  | [] => none
  | c :: cs => digitsValGo base 0 (c :: cs)

/-- Embedding of Python `int(s)` / `int(s, 16)` on an already-stripped
string: optional sign, an optional `0x`/`0X` marker when the base is 16,
then digits of the base. -/
def pyInt (s : String) (base : Nat) : Option Int :=
  let p : Bool × List Char :=
    match s.data with
    | '-' :: r => (true, r)
    | '+' :: r => (false, r)
    | r => (false, r)
  let cs2 : List Char :=
    if base = 16 then
      match p.2 with
      | '0' :: 'x' :: r => r
      | '0' :: 'X' :: r => r
      | r => r
    else p.2
  match digitsVal base cs2 with
  | none => none
  | some n => some (if p.1 then -(n : Int) else (n : Int))

/-- True when the string begins with `0x` or `0X` (Python `startswith`). -/
def hexMarked (s : String) : Bool :=
  match s.data with
  | '0' :: 'x' :: _ => true
  | '0' :: 'X' :: _ => true
  | _ => false

/-- Parse a numeric sub-token the way `parse_address` does: hexadecimal when
`0x`/`0X`-marked, else decimal. -/
def pyIntOf (s : String) : Option Int :=
  if hexMarked s then pyInt s 16 else pyInt s 10

/-! ## `validate_speed` and `parse_address` -/

/-- Embedding of `validate_speed` (source lines 31-47). -/
def validate_speed (speed : Int) : Except String Int :=
  if speed < 5 then
    .error ("Speed too low: " ++ toString speed ++ " kHz (minimum: 5 kHz)")
  else if speed > 50000 then
    .error ("Speed too high: " ++ toString speed ++ " kHz (maximum: 50000 kHz)")
  else .ok speed

/-- Error raise sites of `parse_address`, one constructor per `raise`. -/
inductive AddrErr
  | emptyInput
  | rangeFormat
  | rangeEmptyPart
  | rangeNumber
  | rangeNegStart
  | rangeNonPosSize
  | rangeSizeTooLarge
  | addrNumber
  | addrNegative
  | addrTooLarge
deriving DecidableEq, Repr

/-- Classifier: errors raised on the search-range branch of `parse_address`
(the spec's `InvalidRange` kind). -/
def isRangeErr : AddrErr → Bool
  | .rangeFormat => true
  | .rangeEmptyPart => true
  | .rangeNumber => true
  | .rangeNegStart => true
  | .rangeNonPosSize => true
  | .rangeSizeTooLarge => true
  | _ => false

/-- Classifier: errors raised on the single-value branch of `parse_address`
(the spec's `InvalidAddress` kind). -/
def isAddrErr : AddrErr → Bool
  | .addrNumber => true
  | .addrNegative => true
  | .addrTooLarge => true
  | _ => false

/-- Range branch of `parse_address` for an input that split into exactly the
two sub-tokens `a` and `b` (source lines 68-92). -/
def parseRangeParts (a b : String) : Except AddrErr (Int × Option Int) :=
  let sa := pyStrip a
  let sb := pyStrip b
  if sa = "" ∨ sb = "" then .error .rangeEmptyPart
  else
    match pyIntOf sa, pyIntOf sb with
    | some st, some sz =>
      if st < 0 then .error .rangeNegStart
      else if sz ≤ 0 then .error .rangeNonPosSize
      else if sz > 0xFFFFFFFF then .error .rangeSizeTooLarge
      else .ok (st, some sz)
    | _, _ => .error .rangeNumber

/-- Embedding of `parse_address` (source lines 50-105). Returns
`(address, none)` for a single value and `(start, some size)` for a
search range. -/
def parse_address (s : String) : Except AddrErr (Int × Option Int) :=
  if pyStrip s = "" then .error .emptyInput
  else
    let t := pyStrip s
    if chContains ',' t.data then
      match (pySplit ',' t.data).map String.mk with
      | [a, b] => parseRangeParts a b
      | _ => .error .rangeFormat
    else
      match pyIntOf t with
      | none => .error .addrNumber
      | some v =>
        if v < 0 then .error .addrNegative
        else if v > 0xFFFFFFFFFFFFFFFF then .error .addrTooLarge
        else .ok (v, none)

/-! ## The probe session oracle and `find_buffer_by_name` -/

/-- Result of one buffer-count query: the count, a `JLinkRTTException`, or
some other exception. -/
inductive QRes
  | ok (n : Nat)
  | rttExc
  | otherExc
deriving DecidableEq, Repr

/-- Snapshot of one RTT buffer descriptor (name may carry NUL padding). -/
structure RTTDesc where
  name : String
  SizeOfBuffer : Nat
deriving DecidableEq, Repr

/-- Result of one `rtt_get_buf_descriptor` call: a descriptor, `None`, an
exception the scan skips (`JLinkRTTException` / `UnicodeDecodeError`), or
some other exception that escapes to the catch-all handler. -/
inductive DRes
  | dOk (d : RTTDesc)
  | dNone
  | dSkipExc
  | dOtherExc
deriving DecidableEq, Repr

/-- Oracle model of the pylink session: each query result is indexed by the
retry attempt number, so per-attempt state change is expressible. -/
structure JLinkRTT where
  hasRttIsActive : Bool
  rttIsActiveAt : Nat → Bool
  numUpAt : Nat → QRes
  numDownAt : Nat → QRes
  descAt : Nat → Nat → Bool → DRes

/-- Embedding of `is_rtt_active` (source lines 264-283): prefer the
transport's own flag, else infer activity from a non-exceptional
up-buffer-count query returning a positive count; every exception yields
`false`. -/
def is_rtt_active (j : JLinkRTT) (t : Nat) : Bool :=
  if j.hasRttIsActive then j.rttIsActiveAt t
  else
    match j.numUpAt t with
    | .ok n => decide (0 < n)
    | .rttExc => false
    | .otherExc => false

/-- The `RTTBridgeError` raise sites of `find_buffer_by_name`, plus
`foreign` for a non-bridge exception reaching the catch-all handler and
`unexpected` for the catch-all re-wrap at source line 172. -/
inductive BridgeErr
  | rttNotActive
  | noBuffers (up : Bool)
  | zeroSize (name : String)
  | queryFailed
  | foreign
  | unexpected (inner : BridgeErr)
deriving DecidableEq, Repr

/-- Message text of a `BridgeErr`, following the source's format strings
(`searchName` is the stripped buffer name being searched). -/
def renderErr (searchName : String) : BridgeErr → String
  | .rttNotActive => "RTT is not active. Ensure RTT has been started successfully."
  | .noBuffers up =>
    if up = true then "No UP buffers available" else "No DOWN buffers available"
  | .zeroSize n => "Buffer \x27" ++ n ++ "\x27 has invalid size (0)"
  | .queryFailed => "Failed to query RTT buffers: JLinkRTTException"
  | .foreign => "unhandled exception"
  | .unexpected inner =>
    "Unexpected error while searching for buffer \x27" ++
      (searchName ++ ("\x27: " ++ renderErr searchName inner))

/-- Result of one descriptor scan (inner `for` loop, source lines 147-161). -/
inductive ScanOut
  | found (i : Nat) (d : RTTDesc)
  | sNotFound
  | exc (e : BridgeErr)
deriving DecidableEq, Repr

/-- Descriptor scan of `find_buffer_by_name`: skip `None` descriptors and
skippable exceptions, raise on a zero-capacity name match, abort on any
other exception. `i` is the current index, the second argument the number
of indices still to visit. -/
def scanGo (j : JLinkRTT) (t : Nat) (up : Bool) (name : String) :
    Nat → Nat → ScanOut
  | _, 0 => .sNotFound
  | i, f + 1 =>
    match j.descAt t i up with
    | .dOtherExc => .exc .foreign
    | .dNone => scanGo j t up name (i + 1) f
    | .dSkipExc => scanGo j t up name (i + 1) f
    | .dOk d =>
      if rstripNull d.name = name then
        (if d.SizeOfBuffer = 0 then .exc (.zeroSize name) else .found i d)
      else scanGo j t up name (i + 1) f

/-- Outcome of one retry attempt: a final result, or retry after backoff. -/
inductive AttemptOut
  | res (r : Option (Nat × RTTDesc))
  | retry
deriving Repr

/-- Overall result of `find_buffer_by_name`: `(index, descriptor)` success,
the `(-1, None)` not-found result, or a raised `RTTBridgeError`. -/
inductive FindRes
  | found (i : Nat) (d : RTTDesc)
  | notFound
  | err (e : BridgeErr)
deriving DecidableEq, Repr

/-- One attempt result for `findLoop`. -/
inductive FindStep
  | res (r : FindRes)
  | retry
deriving DecidableEq, Repr

/-- One retry attempt of `find_buffer_by_name` (source lines 128-172):
check RTT activity, query the buffer count for the direction, scan the
descriptors. `isLast` is `attempt = max_retries - 1`; a raised
`RTTBridgeError` other than the one at line 170 is intercepted by the
function's own `except Exception` clause and re-wrapped as `unexpected`. -/
def findAttempt (j : JLinkRTT) (name : String) (up : Bool) (t : Nat)
    (isLast : Bool) : FindStep :=
  if is_rtt_active j t = false then
    (if isLast then .res (.err (.unexpected .rttNotActive)) else .retry)
  else
    match (if up = true then j.numUpAt t else j.numDownAt t) with
    | .rttExc => if isLast then .res (.err .queryFailed) else .retry
    | .otherExc => .res (.err (.unexpected .foreign))
    | .ok count =>
      if count = 0 then
        (if isLast then .res (.err (.unexpected (.noBuffers up))) else .retry)
      else
        match scanGo j t up name 0 count with
        | .found i d => .res (.found i d)
        | .sNotFound => .res .notFound
        | .exc e => .res (.err (.unexpected e))

/-- The retry loop of `find_buffer_by_name`: `t` is the attempt number, the
second argument the number of attempts left; exhausting the loop without a
result is the fallback `return -1, None` at source line 174. -/
def findLoop (j : JLinkRTT) (name : String) (up : Bool) : Nat → Nat → FindRes
  | _, 0 => .notFound
  | t, r + 1 =>
    match findAttempt j name up t (r == 0) with
    | .res x => x
    | .retry => findLoop j name up (t + 1) r

/-- Embedding of `find_buffer_by_name` (source lines 108-174): an empty or
whitespace-only name short-circuits to `(-1, None)`; otherwise the stripped
name is searched with the retry loop. -/
def find_buffer_by_name (j : JLinkRTT) (name : String) (up : Bool)
    (max_retries : Nat) : FindRes :=
  if pyStrip name = "" then .notFound
  else findLoop j (pyStrip name) up 0 max_retries

/-! ## Output events -/

/-- Output stream of a printed line. -/
inductive Stm
  | out
  | err
deriving DecidableEq, Repr

/-- One observable output or lifecycle event: a printed status line, a
buffer-descriptor listing line, a descriptor-read-error listing line, or
closing the probe session. -/
inductive Ev
  | line (c : Stm) (txt : String)
  | bufLine (c : Stm) (i : Nat) (d : RTTDesc)
  | bufDescErrLine (c : Stm) (i : Nat)
  | closeJLink
deriving DecidableEq, Repr

/-- Python single quotes around a name, as in the source's f-strings. -/
def sq (s : String) : String := "\x27" ++ s ++ "\x27"

/-! ## `print_buffers` -/

/-- Listing scan of `print_buffers` over one direction (source lines
197-204 / 215-222): a readable descriptor prints a listing line to stdout,
`None` prints nothing, a skippable exception prints a
descriptor-error line to stdout, and any other exception aborts the whole
listing (second component `true`). -/
def pbScan (j : JLinkRTT) (t : Nat) (up : Bool) : Nat → Nat → List Ev × Bool
  | _, 0 => ([], false)
  | i, f + 1 =>
    match j.descAt t i up with
    | .dOtherExc => ([], true)
    | .dNone => pbScan j t up (i + 1) f
    | .dSkipExc =>
      let r := pbScan j t up (i + 1) f
      (.bufDescErrLine .out i :: r.1, r.2)
    | .dOk d =>
      let r := pbScan j t up (i + 1) f
      (.bufLine .out i d :: r.1, r.2)

/-- Embedding of `print_buffers` (source lines 177-231): returns the
success flag and the emitted output events in order. -/
def print_buffers (j : JLinkRTT) (t : Nat) : Bool × List Ev :=
  if is_rtt_active j t = false then
    (false, [.line .err "Error: RTT is not active"])
  else
    match j.numUpAt t with
    | .rttExc => (false, [.line .out "Up-buffers:", .line .err "  Error reading up-buffers"])
    | .otherExc => (false, [.line .out "Up-buffers:", .line .err "Error printing buffers"])
    | .ok nUp =>
      let upPart := if nUp = 0 then ([Ev.line .out "  (none)"], false) else pbScan j t true 0 nUp
      let upEvs := Ev.line .out "Up-buffers:" :: upPart.1
      if upPart.2 then (false, upEvs ++ [.line .err "Error printing buffers"])
      else
        match j.numDownAt t with
        | .rttExc => (false, upEvs ++ [.line .out "Down-buffers:", .line .err "  Error reading down-buffers"])
        | .otherExc => (false, upEvs ++ [.line .out "Down-buffers:", .line .err "Error printing buffers"])
        | .ok nDown =>
          let dnPart := if nDown = 0 then ([Ev.line .out "  (none)"], false) else pbScan j t false 0 nDown
          let dnEvs := Ev.line .out "Down-buffers:" :: dnPart.1
          if dnPart.2 then (false, upEvs ++ (dnEvs ++ [.line .err "Error printing buffers"]))
          else (true, upEvs ++ dnEvs)

/-- The up-buffer resolution stage of `main` (source lines 520-537): a
raised `RTTBridgeError` or the `(-1, None)` result prints an error and the
available-buffer list, closes the probe session and returns exit code 1;
a found buffer proceeds (`none`). -/
def mainBufferStage (j : JLinkRTT) (bufName : String) (t : Nat) :
    Option (Nat × List Ev) :=
  match find_buffer_by_name j bufName true 3 with
  | .err e =>
    some (1, Ev.line .err ("Error: " ++ renderErr (pyStrip bufName) e) ::
      Ev.line .err "\nAvailable buffers:" ::
        ((print_buffers j t).2 ++ [Ev.closeJLink]))
  | .notFound =>
    some (1, Ev.line .err ("Error: Failed to find matching up-buffer " ++ sq bufName) ::
      Ev.line .err "\nAvailable buffers:" ::
        ((print_buffers j t).2 ++ [Ev.closeJLink]))
  | .found _ _ => none

/-! ## Session Guard and the relay-loop iteration -/

/-- Probe connection flags consulted by the guard checks. -/
structure ProbeState where
  openedF : Bool
  connectedF : Bool
  targetConnectedF : Bool
  identOk : Bool
deriving DecidableEq, Repr

/-- Failure reasons of `verify_jlink_connection`, one per raise site. -/
inductive GuardErr
  | dllNotOpen
  | notConnected
  | targetNotConnected
  | identFailed
deriving DecidableEq, Repr

/-- Embedding of `verify_jlink_connection` (source lines 234-261): checks
probe-open, probe-connected, target-connected and the device-identity
query, in that order, short-circuiting on the first failure. -/
def verify_jlink_connection (p : ProbeState) : Option GuardErr :=
  if p.openedF = false then some .dllNotOpen
  else if p.connectedF = false then some .notConnected
  else if p.targetConnectedF = false then some .targetNotConnected
  else if p.identOk = false then some .identFailed
  else none

/-- Result of one `rtt_read` call in the relay loop: a chunk (possibly
empty), the no-data `JLinkRTTException`, or another `JLinkException`. -/
inductive ReadRes
  | chunk (data : List Nat)
  | noDataExc
  | jlinkExc
deriving DecidableEq, Repr

/-- Result of one `os.write` to the PTY master: bytes written, `EBADF`, or
another `OSError` (re-raised by the source). -/
inductive WriteRes
  | wrote (n : Nat)
  | wBadFd
  | wOtherErr
deriving DecidableEq, Repr

/-- Result of the `select` readiness wait on the PTY master. -/
inductive SelRes
  | selReady
  | selEmpty
  | selBadFd
  | selOtherErr
deriving DecidableEq, Repr

/-- Result of one `os.read` from the PTY master. -/
inductive PtyReadRes
  | rGot (data : List Nat)
  | rBadFd
  | rEio
  | rOtherErr
deriving DecidableEq, Repr

/-- Result of one `rtt_write` to the down-buffer: accepted count or a
`JLinkRTTException`. -/
inductive RttWriteRes
  | accepted (n : Nat)
  | rttWriteExc
deriving DecidableEq, Repr

/-- Warnings the relay loop can print without stopping. -/
inductive Warn
  | shortPtyWrite
  | shortRttWrite
  | rttWriteFailed
deriving DecidableEq, Repr

/-- Environment of one relay-loop iteration: the probe flags, whether the
connection query itself raises, and the outcome of each I/O primitive the
iteration may perform (write outcomes are indexed by the attempted
length). -/
structure IterEnv where
  probe : ProbeState
  connQueryRaises : Bool
  upRead : ReadRes
  ptyWrite : Nat → WriteRes
  bidir : Bool
  downResolved : Bool
  sel : SelRes
  ptyRead : PtyReadRes
  rttWrite : Nat → RttWriteRes

/-- How one iteration leaves the loop: continue to the next iteration,
`break` out, or propagate an uncaught exception (both of the latter reach
the `finally` teardown, i.e. Draining). -/
inductive LoopExit
  | next
  | brk
  | raised
deriving DecidableEq, Repr

/-- Observable outcome of one relay-loop iteration. -/
structure IterOut where
  exit : LoopExit
  errs : Nat
  warns : List Warn
deriving DecidableEq, Repr

/-- Down-direction phase of the relay loop (source lines 640-670), entered
after the up-direction phase with the current consecutive-error count `c`
and warnings `w` emitted so far. -/
def afterUp (env : IterEnv) (c : Nat) (w : List Warn) : IterOut :=
  if env.bidir && env.downResolved then
    match env.sel with
    | .selBadFd => ⟨.brk, c, w⟩
    | .selOtherErr => ⟨.raised, c, w⟩
    | .selEmpty => ⟨.next, c, w⟩
    | .selReady =>
      match env.ptyRead with
      | .rBadFd => ⟨.brk, c, w⟩
      | .rEio => ⟨.brk, c, w⟩
      | .rOtherErr => ⟨.raised, c, w⟩
      | .rGot [] => ⟨.next, c, w⟩
      | .rGot (b :: bs) =>
        match env.rttWrite (b :: bs).length with
        | .accepted n =>
          ⟨.next, c, if n ≠ (b :: bs).length then w ++ [.shortRttWrite] else w⟩
        | .rttWriteExc => ⟨.next, c, w ++ [.rttWriteFailed]⟩
  else ⟨.next, c, w⟩

/-- One Active-state relay-loop iteration (source lines 603-670), given the
incoming consecutive-error count `c` and the threshold `m`
(`max_consecutive_errors`, 10 in the source). -/
def relayIter (env : IterEnv) (c m : Nat) : IterOut :=
  if env.connQueryRaises then ⟨.brk, c, []⟩
  else if !(env.probe.connectedF && env.probe.targetConnectedF) then ⟨.brk, c, []⟩
  else
    match env.upRead with
    | .jlinkExc => if m ≤ c + 1 then ⟨.brk, c + 1, []⟩ else ⟨.next, c + 1, []⟩
    | .noDataExc => afterUp env 0 []
    | .chunk [] => afterUp env c []
    | .chunk (b :: bs) =>
      match env.ptyWrite (b :: bs).length with
      | .wrote n =>
        afterUp env 0 (if n ≠ (b :: bs).length then [.shortPtyWrite] else [])
      | .wBadFd => ⟨.brk, c, []⟩
      | .wOtherErr => ⟨.raised, c, []⟩

/-! ## Signal handler, teardown, argument validation -/

/-- Embedding of `signal_handler` (source lines 588-591): given the current
shutdown flag it returns the new flag value and the output it emits. -/
def signal_handler (_prev : Bool) : Bool × List Ev :=
  (true, [Ev.line .err "\nShutting down..."])

/-- Warnings the teardown sequence can log. -/
inductive TdWarn
  | rttStopFailed
deriving DecidableEq, Repr

/-- State acted on by the teardown sequence: probe session, RTT, the two
PTY descriptors (with whether each variable was ever assigned), and the
symlink path variable plus the filesystem entry it names. -/
structure TDState where
  jlinkOpen : Bool
  rttRunning : Bool
  masterVarSet : Bool
  masterOpen : Bool
  slaveVarSet : Bool
  slaveOpen : Bool
  linkPathSet : Bool
  linkExists : Bool
  linkIsLink : Bool
deriving DecidableEq, Repr

/-- Embedding of `os.close`: raises `OSError` (`EBADF`) on an
already-closed descriptor. -/
def osClose (isOpen : Bool) : Except Unit Unit :=
  if isOpen then .ok () else .error ()

/-- Embedding of the teardown sequence in `main`'s `finally` block (source
lines 678-714): stop RTT (failure logged), close the master and slave
descriptors swallowing `OSError`, remove the symlink only if it still
exists and is a symlink, close the probe session (failure logged). Every
step's exception is caught inside the sequence, so teardown is a total
function. -/
def tearDown (s : TDState) : TDState × List TdWarn :=
  let s1 := if s.jlinkOpen then { s with rttRunning := false } else s
  let w1 : List TdWarn := if s.jlinkOpen then [] else [.rttStopFailed]
  let s2 := if s1.masterVarSet then
      (match osClose s1.masterOpen with
       | .ok _ => { s1 with masterOpen := false }
       | .error _ => s1)
    else s1
  let s3 := if s2.slaveVarSet then
      (match osClose s2.slaveOpen with
       | .ok _ => { s2 with slaveOpen := false }
       | .error _ => s2)
    else s2
  let s4 := if s3.linkPathSet && (s3.linkExists && s3.linkIsLink) then
      { s3 with linkExists := false, linkIsLink := false }
    else s3
  let s5 := { s4 with jlinkOpen := false }
  (s5, w1)

/-- Hardware-touching operations of `main`'s connection phase. -/
inductive HwEv
  | createJLink
  | openJLink
deriving DecidableEq, Repr

/-- Command-line arguments consulted by `main`'s validation phase. -/
structure MainArgs where
  speed : Int
  address : Option String
  buffer : String

/-- Buffer-name check of `main` (source lines 404-406) followed by the
first hardware operations (source lines 416-426). -/
def mainValidateBuffer (a : MainArgs) : Option Nat × List Ev × List HwEv :=
  if pyStrip a.buffer = "" then
    (some 1, [Ev.line .err "Error: Buffer name cannot be empty"], [])
  else (none, [], [HwEv.createJLink, HwEv.openJLink])

/-- Validation phase of `main` (source lines 390-426): speed, then the
optional address string, then the buffer name; each failure prints one
error line to stderr and returns exit code 1 before any hardware event. -/
def mainStart (a : MainArgs) : Option Nat × List Ev × List HwEv :=
  match validate_speed a.speed with
  | .error msg => (some 1, [Ev.line .err ("Error: " ++ msg)], [])
  | .ok _ =>
    match a.address with
    | some astr =>
      match parse_address astr with
      | .error _ => (some 1, [Ev.line .err "Error: Invalid address format"], [])
      | .ok _ => mainValidateBuffer a
    | none => mainValidateBuffer a

/-! ## Concrete fixtures used by witnesses and counterexamples -/

/-- Session whose RTT is reported active but which reports zero buffers in
both directions on every attempt. -/
def sessZeroUp : JLinkRTT where
  hasRttIsActive := true
  rttIsActiveAt := fun _ => true
  numUpAt := fun _ => .ok 0
  numDownAt := fun _ => .ok 0
  descAt := fun _ _ _ => .dNone

/-- Session exposing one zero-capacity up-buffer named `Console`. -/
def sessZeroSize : JLinkRTT where
  hasRttIsActive := true
  rttIsActiveAt := fun _ => true
  numUpAt := fun _ => .ok 1
  numDownAt := fun _ => .ok 0
  descAt := fun _ i u => if u = true ∧ i = 0 then .dOk ⟨"Console", 0⟩ else .dNone

/-- Session exposing one up-buffer named `Data` (capacity 1024) and no
down-buffers; no buffer named `Terminal` exists. -/
def sessData : JLinkRTT where
  hasRttIsActive := true
  rttIsActiveAt := fun _ => true
  numUpAt := fun _ => .ok 1
  numDownAt := fun _ => .ok 0
  descAt := fun _ i u => if u = true ∧ i = 0 then .dOk ⟨"Data", 1024⟩ else .dNone

/-- Iteration environment whose probe fails the Session Guard's probe-open
check while both per-iteration flags read true; the up-read reports
no data. -/
def envGuardGap : IterEnv where
  probe := ⟨false, true, true, true⟩
  connQueryRaises := false
  upRead := .noDataExc
  ptyWrite := fun _ => .wrote 0
  bidir := false
  downResolved := false
  sel := .selEmpty
  ptyRead := .rGot []
  rttWrite := fun _ => .accepted 0

/-- Iteration environment whose probe-connected flag reads false. -/
def envDisconnected : IterEnv where
  probe := ⟨true, false, true, true⟩
  connQueryRaises := false
  upRead := .noDataExc
  ptyWrite := fun _ => .wrote 0
  bidir := false
  downResolved := false
  sel := .selEmpty
  ptyRead := .rGot []
  rttWrite := fun _ => .accepted 0

/-- Healthy bidirectional iteration environment in which the down-buffer
write raises. -/
def envDownFail : IterEnv where
  probe := ⟨true, true, true, true⟩
  connQueryRaises := false
  upRead := .noDataExc
  ptyWrite := fun _ => .wrote 0
  bidir := true
  downResolved := true
  sel := .selReady
  ptyRead := .rGot [7]
  rttWrite := fun _ => .rttWriteExc

/-- Healthy unidirectional iteration environment whose up-read reports
no data. -/
def envNoData : IterEnv where
  probe := ⟨true, true, true, true⟩
  connQueryRaises := false
  upRead := .noDataExc
  ptyWrite := fun _ => .wrote 0
  bidir := false
  downResolved := false
  sel := .selEmpty
  ptyRead := .rGot []
  rttWrite := fun _ => .accepted 0

/-- Invocation arguments with an out-of-range interface speed. -/
def argsBadSpeed : MainArgs := ⟨3, none, "Terminal"⟩

/-! ## Helper lemmas -/

theorem chContains_of_count (c : Char) :
    ∀ l : List Char, 0 < chCount c l → chContains c l = true := by
  intro l
  induction l with
  | nil => simp [chCount]
  | cons x xs ih =>
    intro h
    by_cases hx : x = c
    · simp [chContains, hx]
    · simp only [chContains, if_neg hx]
      exact ih (by simpa [chCount, hx] using h)

theorem pySplit_ne_nil (c : Char) : ∀ l : List Char, pySplit c l ≠ [] := by
  intro l
  induction l with
  | nil => simp [pySplit]
  | cons x xs ih =>
    cases hs : pySplit c xs with
    | nil => exact absurd hs ih
    | cons hd tl =>
      cases hx : decide (x = c) <;> simp [pySplit, hs, hx]

theorem pySplit_length (c : Char) :
    ∀ l : List Char, (pySplit c l).length = chCount c l + 1 := by
  intro l
  induction l with
  | nil => simp [pySplit, chCount]
  | cons x xs ih =>
    cases hs : pySplit c xs with
    | nil => exact absurd hs (pySplit_ne_nil c xs)
    | cons hd tl =>
      rw [hs] at ih
      by_cases hx : x = c <;>
        simp [pySplit, hs, hx, chCount] at ih ⊢ <;> omega

/-! ## Claim C5 — `parse_address` on inputs with more than one comma -/

/-- Claim C5 counterexample: on the input `1,2,3`, which contains more than
one comma, `parse_address` raises the search-range format error (the
`InvalidRange` kind), not any single-value `InvalidAddress` error, so the
input is treated as a search range rather than as a single value. -/
theorem multi_comma_cex :
    parse_address "1,2,3" = .error .rangeFormat
    ∧ isRangeErr .rangeFormat = true
    ∧ isAddrErr .rangeFormat = false := ⟨rfl, rfl, rfl⟩

/-- Claim C5 (amended): every input string containing more than one comma
is treated as a search range — it takes the comma branch of
`parse_address`, whose two-part split check fails — and the parse fails
with the search-range format error of the `InvalidRange` kind, not with
the single-value `InvalidAddress` kind. -/
theorem multi_comma_is_range_error (s : String)
    (h : 2 ≤ chCount ',' (pyStrip s).data) :
    parse_address s = .error .rangeFormat := by
  have hne : ¬ (pyStrip s = "") := by
    intro he
    rw [he] at h
    have h0 : chCount ',' ("" : String).data = 0 := rfl
    omega
  have hcont : chContains ',' (pyStrip s).data = true :=
    chContains_of_count ',' _ (by omega)
  have hlen : 3 ≤ ((pySplit ',' (pyStrip s).data).map String.mk).length := by
    rw [List.length_map, pySplit_length]
    omega
  rcases hL : (pySplit ',' (pyStrip s).data).map String.mk with
    _ | ⟨a, _ | ⟨b, _ | ⟨c3, rest⟩⟩⟩
  · rw [hL] at hlen; simp at hlen
  · rw [hL] at hlen; simp at hlen
  · rw [hL] at hlen; simp at hlen
  · simp [parse_address, hne, hcont, hL]

/-- Witness for the amended claim C5 at a concrete three-comma input. -/
theorem multi_comma_is_range_error_witness :
    parse_address "0x10,0x20,0x30" = .error .rangeFormat :=
  multi_comma_is_range_error "0x10,0x20,0x30" (by decide)

/-! ## Claim C3 — the signal handler -/

/-- Claim C3 counterexample: the signal-handling path does not only set the
shutdown flag — besides setting the flag it emits an output line (a print
to standard error), so it performs I/O from the signal-handling context. -/
theorem signal_handler_emits_output :
    (signal_handler false).1 = true
    ∧ (signal_handler false).2 ≠ []
    ∧ Ev.line Stm.err "\nShutting down..." ∈ (signal_handler false).2 := by
  decide

/-- Claim C3 (amended): on every delivery of an interrupt, terminate, or
quit signal the handler sets the shutdown flag to true and additionally
prints one shutdown notice to standard error; it performs no other
operation. -/
theorem signal_handler_sets_flag_and_prints (b : Bool) :
    signal_handler b = (true, [Ev.line Stm.err "\nShutting down..."]) := rfl

/-! ## Claim C4 — teardown idempotence -/

/-- Claim C4: running the teardown sequence twice in succession leaves the
state unchanged — closing an already-closed PTY master or slave descriptor
and removing an already-removed symlink are no-ops. `tearDown` is a total
function (every step's exception is caught inside it, mirroring the
source's per-step `try`/`except`), so neither invocation raises. -/
theorem teardown_idempotent (s : TDState) :
    (tearDown (tearDown s).1).1 = (tearDown s).1 := by
  rcases s with ⟨a, b, c, d, e, f, g, h, i⟩
  revert a b c d e f g h i
  decide

/-! ## Claim C8 — validation failures precede hardware -/

/-- Claim C8: an invocation whose interface speed is below 5 or above
50000 kHz, whose address string fails to parse, or whose buffer name is
empty or whitespace-only, prints one error line to standard error and
exits with code 1 before any probe-session operation: its hardware event
list is empty. -/
theorem validation_blocks_hardware (a : MainArgs)
    (h : a.speed < 5 ∨ 50000 < a.speed
      ∨ (∃ s e, a.address = some s ∧ parse_address s = .error e)
      ∨ pyStrip a.buffer = "") :
    (mainStart a).1 = some 1 ∧ (mainStart a).2.2 = []
      ∧ ∃ msg, (mainStart a).2.1 = [Ev.line Stm.err msg] := by
  by_cases h5 : a.speed < 5
  · simp [mainStart, validate_speed, h5]
  · by_cases h50 : a.speed > 50000
    · simp [mainStart, validate_speed, h5, h50]
    · rcases h with h | h | ⟨s, e, hsome, herr⟩ | hbuf
      · exact absurd h h5
      · exact absurd h h50
      · simp [mainStart, validate_speed, h5, h50, hsome, herr]
      · cases ha : a.address with
        | none =>
          simp [mainStart, validate_speed, h5, h50, ha, mainValidateBuffer, hbuf]
        | some astr =>
          cases hp : parse_address astr with
          | error e => simp [mainStart, validate_speed, h5, h50, ha, hp]
          | ok v =>
            simp [mainStart, validate_speed, h5, h50, ha, hp,
              mainValidateBuffer, hbuf]

/-- Witness for claim C8 at a concrete invocation with speed 3 kHz. -/
theorem validation_blocks_hardware_witness :
    (mainStart argsBadSpeed).1 = some 1 ∧ (mainStart argsBadSpeed).2.2 = [] := by
  have h := validation_blocks_hardware argsBadSpeed (Or.inl (by decide))
  exact ⟨h.1, h.2.1⟩

/-! ## Claims C1 and C9 — error shapes of `find_buffer_by_name` -/

theorem findAttempt_err_shape (j : JLinkRTT) (n : String) (up : Bool) (t : Nat)
    (l : Bool) (e : BridgeErr)
    (h : findAttempt j n up t l = .res (.err e)) :
    e = .queryFailed ∨ ∃ i, e = .unexpected i := by
  unfold findAttempt at h
  repeat' split at h
  all_goals simp_all
  all_goals simp [← h]

theorem findLoop_err_shape (j : JLinkRTT) (n : String) (up : Bool) :
    ∀ r t e, findLoop j n up t r = .err e →
      e = .queryFailed ∨ ∃ i, e = .unexpected i := by
  intro r
  induction r with
  | zero => intro t e h; simp [findLoop] at h
  | succ r ih =>
    intro t e h
    simp only [findLoop] at h
    cases hA : findAttempt j n up t (r == 0) with
    | res x =>
      rw [hA] at h
      simp at h
      exact findAttempt_err_shape j n up t (r == 0) e (hA.trans (by rw [h]))
    | retry =>
      rw [hA] at h
      simp at h
      exact ih (t + 1) e h

theorem findAttempt_zero_buffers (j : JLinkRTT) (n : String) (up : Bool)
    (t : Nat) (l : Bool)
    (ha : is_rtt_active j t = true)
    (hz : (if up = true then j.numUpAt t else j.numDownAt t) = QRes.ok 0) :
    findAttempt j n up t l =
      (if l then .res (.err (.unexpected (.noBuffers up))) else .retry) := by
  unfold findAttempt
  simp [ha, hz]

theorem findLoop_zero_buffers (j : JLinkRTT) (n : String) (up : Bool)
    (ha : ∀ t, is_rtt_active j t = true)
    (hz : ∀ t, (if up = true then j.numUpAt t else j.numDownAt t) = QRes.ok 0) :
    ∀ r t, 1 ≤ r → findLoop j n up t r = .err (.unexpected (.noBuffers up)) := by
  intro r
  induction r with
  | zero => intro t h; omega
  | succ r ih =>
    intro t _
    simp only [findLoop]
    rw [findAttempt_zero_buffers j n up t (r == 0) (ha t) (hz t)]
    by_cases hr : r = 0
    · simp [hr]
    · have hb : (r == 0) = false := by simp [hr]
      rw [hb]
      simp only [if_neg (by simp : ¬ (false = true))]
      exact ih (t + 1) (by omega)

/-- Claim C1 counterexample: on a session whose RTT reports active and that
reports zero up-buffers on every one of the three attempts,
`find_buffer_by_name` does fail with an error and not with the not-found
result, but the raised error is the catch-all re-wrapped
`Unexpected error while searching for buffer` one, not the bare
`NoBuffersAvailable` kind the claim states. -/
theorem no_buffers_kind_cex :
    find_buffer_by_name sessZeroUp "Terminal" true 3
      = .err (.unexpected (.noBuffers true))
    ∧ find_buffer_by_name sessZeroUp "Terminal" true 3 ≠ .err (.noBuffers true)
    ∧ find_buffer_by_name sessZeroUp "Terminal" true 3 ≠ .notFound
    ∧ sessZeroUp.numUpAt 0 = .ok 0 ∧ sessZeroUp.numUpAt 1 = .ok 0
    ∧ sessZeroUp.numUpAt 2 = .ok 0 :=
  ⟨rfl, by decide, by decide, rfl, rfl, rfl⟩

/-- Claim C1 (amended): for every session that reports RTT active and zero
buffers of the requested direction on every attempt, and every non-empty
buffer name, `find_buffer_by_name` after exhausting its three attempts
fails with a `BridgeError` — not with the `NotFound` result `(-1, None)` —
whose content is the `NoBuffersAvailable` error for that direction
re-wrapped by the function's catch-all `Unexpected error` handler. -/
theorem zero_buffers_wrapped (j : JLinkRTT) (name : String) (up : Bool)
    (hn : ¬ (pyStrip name = ""))
    (ha : ∀ t, is_rtt_active j t = true)
    (hz : ∀ t, (if up = true then j.numUpAt t else j.numDownAt t) = QRes.ok 0) :
    find_buffer_by_name j name up 3 = .err (.unexpected (.noBuffers up)) := by
  unfold find_buffer_by_name
  rw [if_neg hn]
  exact findLoop_zero_buffers j (pyStrip name) up ha hz 3 0 (by omega)

/-- Witness for the amended claim C1 on a concrete zero-buffer session. -/
theorem zero_buffers_wrapped_witness :
    find_buffer_by_name sessZeroUp "Console" true 3
      = .err (.unexpected (.noBuffers true)) :=
  zero_buffers_wrapped sessZeroUp "Console" true (by decide)
    (fun _ => rfl) (fun _ => rfl)

theorem str_append_assoc (a b c : String) :
    (a ++ b) ++ c = a ++ (b ++ c) := by
  rcases a with ⟨la⟩; rcases b with ⟨lb⟩; rcases c with ⟨lc⟩
  show String.mk ((la ++ lb) ++ lc) = String.mk (la ++ (lb ++ lc))
  rw [List.append_assoc]

/-- Claim C9: every error raised out of `find_buffer_by_name` is either the
line-170 query failure (raised from inside an `except` clause, hence not
re-wrapped) or one intercepted by the function's own catch-all `except
Exception` handler, whose detail message therefore begins with
`Unexpected error while searching for buffer`. In particular the
RTT-inactive, no-buffers-available and zero-capacity-buffer errors always
surface in the re-wrapped form. -/
theorem find_error_detail_unexpected (j : JLinkRTT) (name : String) (up : Bool)
    (e : BridgeErr) (h : find_buffer_by_name j name up 3 = .err e) :
    e = .queryFailed
    ∨ ∃ rest, renderErr (pyStrip name) e
        = "Unexpected error while searching for buffer" ++ rest := by
  unfold find_buffer_by_name at h
  by_cases hn : pyStrip name = ""
  · rw [if_pos hn] at h
    simp at h
  · rw [if_neg hn] at h
    rcases findLoop_err_shape j (pyStrip name) up 3 0 e h with h1 | ⟨i, hi⟩
    · exact Or.inl h1
    · subst hi
      refine Or.inr
        ⟨" \x27" ++ (pyStrip name ++ ("\x27: " ++ renderErr (pyStrip name) i)), ?_⟩
      have hsplit : ("Unexpected error while searching for buffer \x27" : String)
          = "Unexpected error while searching for buffer" ++ " \x27" := by decide
      show "Unexpected error while searching for buffer \x27"
          ++ (pyStrip name ++ ("\x27: " ++ renderErr (pyStrip name) i)) = _
      rw [hsplit, str_append_assoc]

/-- Witness for claim C9 on a session with a zero-capacity matching
buffer. -/
theorem find_error_detail_unexpected_witness :
    (BridgeErr.unexpected (.zeroSize "Console") = .queryFailed
    ∨ ∃ rest, renderErr (pyStrip "Console") (.unexpected (.zeroSize "Console"))
        = "Unexpected error while searching for buffer" ++ rest) :=
  find_error_detail_unexpected sessZeroSize "Console" true
    (.unexpected (.zeroSize "Console")) (by decide)

/-! ## Claim C2 — the per-iteration connection check -/

/-- Claim C2 counterexample: an iteration environment whose probe fails the
Session Guard (`verify_jlink_connection`) at its very first check — the
probe-open flag is false — while both flags the relay loop actually
consults read true: the iteration does not transition to Draining but
continues relaying, so the iteration does not begin with the four-check
Session Guard verification. -/
theorem session_guard_not_per_iteration_cex :
    verify_jlink_connection envGuardGap.probe = some .dllNotOpen
    ∧ (relayIter envGuardGap 0 10).exit = .next := ⟨rfl, rfl⟩

/-- Claim C2 (amended): every Active-state relay-loop iteration begins with
a reduced connection check — the probe-connected flag and the
target-connected flag only, an exception during the check also counting as
failure — and any failure of that check breaks the loop into Draining with
nothing else done; the probe-open flag and the device-identity query play
no part in the iteration (the full four-check Session Guard runs only at
startup). -/
theorem relay_iter_reduced_guard (env : IterEnv) (c m : Nat) :
    (¬ (env.connQueryRaises = false ∧ env.probe.connectedF = true
        ∧ env.probe.targetConnectedF = true) →
      relayIter env c m = ⟨.brk, c, []⟩)
    ∧ (∀ b i, relayIter
        { env with probe := { env.probe with openedF := b, identOk := i } } c m
        = relayIter env c m) := by
  constructor
  · intro h
    by_cases h1 : env.connQueryRaises
    · simp [relayIter, h1]
    · have h1f : env.connQueryRaises = false := by simpa using h1
      by_cases h2 : env.probe.connectedF = true
      · by_cases h3 : env.probe.targetConnectedF = true
        · exact absurd ⟨h1f, h2, h3⟩ h
        · have h3f : env.probe.targetConnectedF = false := by simpa using h3
          simp [relayIter, h1f, h2, h3f]
      · have h2f : env.probe.connectedF = false := by simpa using h2
        simp [relayIter, h1f, h2f]
  · intro b i
    rfl

/-- Witness for the amended claim C2: a false probe-connected flag breaks
the iteration. -/
theorem relay_iter_reduced_guard_witness :
    relayIter envDisconnected 0 10 = ⟨.brk, 0, []⟩ :=
  (relay_iter_reduced_guard envDisconnected 0 10).1 (by decide)

/-! ## Claim C7 — a down-buffer write failure is never fatal -/

/-- Claim C7: in every bidirectional relay iteration that reaches the
down-direction phase and in which the write of operator input to the
down-buffer raises, the loop emits the failed-write warning and continues
to the next iteration — the iteration's exit is `next`, never a break or
an uncaught exception. -/
theorem down_write_failure_nonfatal (env : IterEnv) (c m : Nat) (d : List Nat)
    (h1 : env.connQueryRaises = false)
    (h2 : env.probe.connectedF = true)
    (h3 : env.probe.targetConnectedF = true)
    (hup : env.upRead = .noDataExc ∨ env.upRead = .chunk []
      ∨ ∃ d0 n, env.upRead = .chunk d0 ∧ env.ptyWrite d0.length = .wrote n)
    (hb : env.bidir = true) (hd : env.downResolved = true)
    (hsel : env.sel = .selReady)
    (hr : env.ptyRead = .rGot d) (hdne : d ≠ [])
    (hw : env.rttWrite d.length = .rttWriteExc) :
    (relayIter env c m).exit = .next
    ∧ Warn.rttWriteFailed ∈ (relayIter env c m).warns := by
  cases d with
  | nil => exact absurd rfl hdne
  | cons x xs =>
    have hw' : env.rttWrite (xs.length + 1) = .rttWriteExc := by simpa using hw
    have hafter : ∀ c0 w, (afterUp env c0 w).exit = .next
        ∧ Warn.rttWriteFailed ∈ (afterUp env c0 w).warns := by
      intro c0 w
      simp [afterUp, hb, hd, hsel, hr, hw']
    rcases hup with hu | hu | ⟨d0, n, hu, hwr⟩
    · rw [show relayIter env c m = afterUp env 0 [] from by
        simp [relayIter, h1, h2, h3, hu]]
      exact hafter 0 []
    · rw [show relayIter env c m = afterUp env c [] from by
        simp [relayIter, h1, h2, h3, hu]]
      exact hafter c []
    · cases d0 with
      | nil =>
        rw [show relayIter env c m = afterUp env c [] from by
          simp [relayIter, h1, h2, h3, hu]]
        exact hafter c []
      | cons y ys =>
        have hwr' : env.ptyWrite (ys.length + 1) = .wrote n := by simpa using hwr
        rw [show relayIter env c m
            = afterUp env 0 (if n = ys.length + 1 then [] else [.shortPtyWrite])
            from by simp [relayIter, h1, h2, h3, hu, hwr']]
        exact hafter 0 _

/-- Witness for claim C7 on a concrete bidirectional environment. -/
theorem down_write_failure_nonfatal_witness :
    (relayIter envDownFail 0 10).exit = .next
    ∧ Warn.rttWriteFailed ∈ (relayIter envDownFail 0 10).warns :=
  down_write_failure_nonfatal envDownFail 0 10 [7] rfl rfl rfl (Or.inl rfl)
    rfl rfl rfl rfl (by decide) rfl

/-! ## Claim C10 — the consecutive-error counter -/

theorem afterUp_errs (env : IterEnv) (c : Nat) (w : List Warn) :
    (afterUp env c w).errs = c := by
  unfold afterUp
  repeat' split
  all_goals rfl

/-- Claim C10: in a steady-state iteration whose connection check passes, a
non-exceptional up-buffer read returning an empty chunk leaves the
consecutive-error counter unchanged, and the counter ends at zero for
every incoming value (i.e. is reset) exactly when the read raises the
no-data exception or a non-empty chunk is written to the PTY master
without the write raising. -/
theorem relay_error_counter (env : IterEnv) (m : Nat)
    (h1 : env.connQueryRaises = false)
    (h2 : env.probe.connectedF = true)
    (h3 : env.probe.targetConnectedF = true) :
    (∀ c, env.upRead = .chunk [] → (relayIter env c m).errs = c)
    ∧ ((∀ c, (relayIter env c m).errs = 0) ↔
        (env.upRead = .noDataExc
        ∨ ∃ d n, env.upRead = .chunk d ∧ d ≠ []
            ∧ env.ptyWrite d.length = .wrote n)) := by
  constructor
  · intro c hc
    simp [relayIter, h1, h2, h3, hc, afterUp_errs]
  · constructor
    · intro hall
      cases hu : env.upRead with
      | jlinkExc =>
        exfalso
        have hx := hall 1
        simp [relayIter, h1, h2, h3, hu] at hx
        by_cases hm : m ≤ 2 <;> simp [hm] at hx
      | noDataExc => exact Or.inl rfl
      | chunk dd =>
        cases dd with
        | nil =>
          exfalso
          have hx := hall 1
          simp [relayIter, h1, h2, h3, hu, afterUp_errs] at hx
        | cons x xs =>
          cases hw : env.ptyWrite (x :: xs).length with
          | wrote n => exact Or.inr ⟨x :: xs, n, rfl, by simp, hw⟩
          | wBadFd =>
            exfalso
            have hw' : env.ptyWrite (xs.length + 1) = .wBadFd := by simpa using hw
            have hx := hall 1
            simp [relayIter, h1, h2, h3, hu, hw'] at hx
          | wOtherErr =>
            exfalso
            have hw' : env.ptyWrite (xs.length + 1) = .wOtherErr := by simpa using hw
            have hx := hall 1
            simp [relayIter, h1, h2, h3, hu, hw'] at hx
    · rintro (hu | ⟨d, n, hu, hdne, hw⟩) c
      · simp [relayIter, h1, h2, h3, hu, afterUp_errs]
      · cases d with
        | nil => exact absurd rfl hdne
        | cons x xs =>
          have hw' : env.ptyWrite (xs.length + 1) = .wrote n := by simpa using hw
          simp [relayIter, h1, h2, h3, hu, hw', afterUp_errs]

/-- Witness for claim C10: the counter resets on a no-data read. -/
theorem relay_error_counter_witness :
    (relayIter envNoData 5 10).errs = 0 :=
  ((relay_error_counter envNoData 10 rfl rfl rfl).2.mpr (Or.inl rfl)) 5

/-! ## Claim C6 — buffer-not-found exit path -/

theorem pbScan_bufLine_out (j : JLinkRTT) (t : Nat) (up : Bool) (c : Stm)
    (k : Nat) (d : RTTDesc) :
    ∀ f i, Ev.bufLine c k d ∈ (pbScan j t up i f).1 → c = Stm.out := by
  intro f
  induction f with
  | zero => intro i h; simp [pbScan] at h
  | succ f ih =>
    intro i h
    simp only [pbScan] at h
    cases hd : j.descAt t i up with
    | dOtherExc => rw [hd] at h; simp at h
    | dNone =>
      rw [hd] at h
      exact ih (i + 1) h
    | dSkipExc =>
      rw [hd] at h
      simp only [List.mem_cons] at h
      rcases h with h | h
      · cases h
      · exact ih (i + 1) h
    | dOk d' =>
      rw [hd] at h
      simp only [List.mem_cons] at h
      rcases h with h | h
      · cases h; rfl
      · exact ih (i + 1) h

theorem print_buffers_bufLine_out (j : JLinkRTT) (t : Nat) (c : Stm)
    (k : Nat) (d : RTTDesc)
    (h : Ev.bufLine c k d ∈ (print_buffers j t).2) : c = Stm.out := by
  simp only [print_buffers] at h
  repeat' split at h
  all_goals simp only [List.mem_append, List.mem_cons, List.mem_singleton,
    List.not_mem_nil, or_false, false_or] at h
  all_goals
    repeat'
      first
      | exact pbScan_bufLine_out j t true c k d _ _ h
      | exact pbScan_bufLine_out j t false c k d _ _ h
      | exact h.elim
      | (rcases h with h | h)

/-- Claim C6 counterexample: a session exposing one up-buffer `Data` and no
buffer named `Terminal`; the buffer-resolution stage exits with code 1,
but the available-buffer listing line is printed to standard output, not
to standard error as the claim states. -/
theorem buffer_list_stream_cex :
    find_buffer_by_name sessData "Terminal" true 3 = FindRes.notFound
    ∧ Option.map Prod.fst (mainBufferStage sessData "Terminal" 0) = some 1
    ∧ Ev.bufLine Stm.out 0 ⟨"Data", 1024⟩ ∈ (print_buffers sessData 0).2
    ∧ Ev.bufLine Stm.err 0 ⟨"Data", 1024⟩ ∉ (print_buffers sessData 0).2 :=
  ⟨rfl, rfl, by decide, by decide⟩

/-- Claim C6 (amended): for every invocation whose requested buffer name
matches no up-buffer (the locator returns the not-found result), the
buffer-resolution stage returns exit code 1 and emits, in order: the
failure message and an `Available buffers:` header on standard error, the
full available-buffer list — whose descriptor listing lines all go to
standard output, not standard error — and only then the probe-session
close of teardown. -/
theorem buffer_not_found_exit (j : JLinkRTT) (name : String) (t : Nat)
    (h : find_buffer_by_name j name true 3 = .notFound) :
    mainBufferStage j name t =
      some (1,
        Ev.line .err ("Error: Failed to find matching up-buffer " ++ sq name) ::
        Ev.line .err "\nAvailable buffers:" ::
          ((print_buffers j t).2 ++ [Ev.closeJLink]))
    ∧ (∀ c k d, Ev.bufLine c k d ∈ (print_buffers j t).2 → c = Stm.out) := by
  refine ⟨by simp [mainBufferStage, h], ?_⟩
  intro c k d hm
  exact print_buffers_bufLine_out j t c k d hm

/-- Witness for the amended claim C6 on the concrete `Data`-only session. -/
theorem buffer_not_found_exit_witness :
    mainBufferStage sessData "Terminal" 0 =
      some (1,
        Ev.line .err ("Error: Failed to find matching up-buffer " ++ sq "Terminal") ::
        Ev.line .err "\nAvailable buffers:" ::
          ((print_buffers sessData 0).2 ++ [Ev.closeJLink])) :=
  (buffer_not_found_exit sessData "Terminal" 0 (by decide)).1

end Rtt2Pty
